import Mathlib

/-!
Verification of the Inheritor beneficiary claim tool (the Node.js script
embedded in src/Manuals/CheckClaimable.md) against its design document.
The development shallowly embeds the byte-level pipeline: SHA-256, HMAC,
HKDF (as the script implements it), secp256k1 ECDH, AES-256-GCM, the
key-blob and asset decryption routines, the Arweave locator fallback and
the claim gate. Bytes are `Nat` values below 256, byte strings are
`List Nat`, and machine-word arithmetic is explicit modular arithmetic.
-/

set_option maxRecDepth 8192

namespace Inheritor

/-- One byte, kept as a natural number below 256. -/
abbrev Byte := Nat

/-- 2 to the 32, the modulus of 32-bit word arithmetic. -/
def u32 : Nat := 4294967296

/-- Right rotation of a 32-bit word by n bits. -/
def rotr32 (n x : Nat) : Nat := (x >>> n) ||| ((x <<< (32 - n)) % u32)

/-- SHA-256 choice function Ch(x,y,z). -/
def shaCh (x y z : Nat) : Nat := (x &&& y) ^^^ ((x ^^^ 4294967295) &&& z)

/-- SHA-256 majority function Maj(x,y,z). -/
def shaMaj (x y z : Nat) : Nat := (x &&& y) ^^^ (x &&& z) ^^^ (y &&& z)

/-- SHA-256 big sigma 0. -/
def bsig0 (x : Nat) : Nat := rotr32 2 x ^^^ rotr32 13 x ^^^ rotr32 22 x

/-- SHA-256 big sigma 1. -/
def bsig1 (x : Nat) : Nat := rotr32 6 x ^^^ rotr32 11 x ^^^ rotr32 25 x

/-- SHA-256 small sigma 0. -/
def ssig0 (x : Nat) : Nat := rotr32 7 x ^^^ rotr32 18 x ^^^ (x >>> 3)

/-- SHA-256 small sigma 1. -/
def ssig1 (x : Nat) : Nat := rotr32 17 x ^^^ rotr32 19 x ^^^ (x >>> 10)

/-- The 64 SHA-256 round constants. -/
def shaK : List Nat :=
  [1116352408, 1899447441, 3049323471, 3921009573, 961987163, 1508970993,
   2453635748, 2870763221, 3624381080, 310598401, 607225278, 1426881987,
   1925078388, 2162078206, 2614888103, 3248222580, 3835390401, 4022224774,
   264347078, 604807628, 770255983, 1249150122, 1555081692, 1996064986,
   2554220882, 2821834349, 2952996808, 3210313671, 3336571891, 3584528711,
   113926993, 338241895, 666307205, 773529912, 1294757372, 1396182291,
   1695183700, 1986661051, 2177026350, 2456956037, 2730485921, 2820302411,
   3259730800, 3345764771, 3516065817, 3600352804, 4094571909, 275423344,
   430227734, 506948616, 659060556, 883997877, 958139571, 1322822218,
   1537002063, 1747873779, 1955562222, 2024104815, 2227730452, 2361852424,
   2428436474, 2756734187, 3204031479, 3329325298]

/-- The eight SHA-256 initial hash words. -/
def shaH0 : List Nat :=
  [1779033703, 3144134277, 1013904242, 2773480762, 1359893119, 2600822924, 528734635, 1541459225]

/-- Big-endian serialization of a 32-bit word as four bytes. -/
def word32ToBytes (x : Nat) : List Byte :=
  [(x >>> 24) &&& 255, (x >>> 16) &&& 255, (x >>> 8) &&& 255, x &&& 255]

/-- Big-endian serialization of a 64-bit word as eight bytes. -/
def word64ToBytes (x : Nat) : List Byte :=
  [(x >>> 56) &&& 255, (x >>> 48) &&& 255, (x >>> 40) &&& 255, (x >>> 32) &&& 255,
   (x >>> 24) &&& 255, (x >>> 16) &&& 255, (x >>> 8) &&& 255, x &&& 255]

/-- Big-endian 32-bit words from a byte string, four bytes at a time. -/
def bytesToWords : List Byte → List Nat
  | a :: b :: c :: d :: rest => (((a * 256 + b) * 256 + c) * 256 + d) :: bytesToWords rest
  | _ => []

/-- SHA-256 padding: append 0x80, zeros, then the 64-bit big-endian bit length. -/
def shaPad (msg : List Byte) : List Byte :=
  msg ++ [128] ++ List.replicate ((64 + 56 - (msg.length + 1) % 64) % 64) 0
      ++ word64ToBytes (8 * msg.length)

/-- Extension of the 16 message words to the 64-word SHA-256 schedule
(fuel counts the 48 remaining words). -/
def shaExtend : Nat → List Nat → List Nat
  | 0, w => w
  | fuel + 1, w =>
    let i := w.length
    let nw := (ssig1 (w.getD (i - 2) 0) + w.getD (i - 7) 0
               + ssig0 (w.getD (i - 15) 0) + w.getD (i - 16) 0) % u32
    shaExtend fuel (w ++ [nw])

/-- The 64 SHA-256 rounds over the state [a,b,c,d,e,f,g,h]. -/
def shaRounds (w : List Nat) : Nat → Nat → List Nat → List Nat
  | 0, _, st => st
  | fuel + 1, t, st =>
    let a := st.getD 0 0
    let b := st.getD 1 0
    let c := st.getD 2 0
    let d := st.getD 3 0
    let e := st.getD 4 0
    let f := st.getD 5 0
    let g := st.getD 6 0
    let h := st.getD 7 0
    let t1 := (h + bsig1 e + shaCh e f g + shaK.getD t 0 + w.getD t 0) % u32
    let t2 := (bsig0 a + shaMaj a b c) % u32
    shaRounds w fuel (t + 1) [(t1 + t2) % u32, a, b, c, (d + t1) % u32, e, f, g]

/-- One SHA-256 compression step over a 64-byte block. -/
def shaCompress (st : List Nat) (block : List Byte) : List Nat :=
  let w := shaExtend 48 (bytesToWords block)
  let e := shaRounds w 64 0 st
  List.zipWith (fun x y => (x + y) % u32) st e

/-- A byte string cut into 64-byte blocks (fuel bounds the recursion by the
length of the string). -/
def chunks64 : Nat → List Byte → List (List Byte)
  | 0, _ => []
  | _, [] => []
  | fuel + 1, msg => msg.take 64 :: chunks64 fuel (msg.drop 64)

/-- SHA-256 of a byte string, as its 32 digest bytes. -/
def sha256 (msg : List Byte) : List Byte :=
  let padded := shaPad msg
  let st := (chunks64 padded.length padded).foldl shaCompress shaH0
  word32ToBytes (st.getD 0 0) ++ word32ToBytes (st.getD 1 0) ++ word32ToBytes (st.getD 2 0)
    ++ word32ToBytes (st.getD 3 0) ++ word32ToBytes (st.getD 4 0) ++ word32ToBytes (st.getD 5 0)
    ++ word32ToBytes (st.getD 6 0) ++ word32ToBytes (st.getD 7 0)

/-- HMAC-SHA-256, the semantics of createHmac in the script. -/
def hmacSha256 (key msg : List Byte) : List Byte :=
  let k0 := if 64 < key.length then sha256 key else key
  let kpad := k0 ++ List.replicate (64 - k0.length) 0
  sha256 ((kpad.map (fun b => b ^^^ 92)) ++ sha256 ((kpad.map (fun b => b ^^^ 54)) ++ msg))

/-- The HKDF-Expand loop of the script: iterations build T(i) = HMAC-SHA-256
(prk, T(i-1) || info || i) and concatenate the blocks. -/
def hkdfExpand (prk inf : List Byte) : Nat → Nat → List Byte → List Byte
  | 0, _, _ => []
  | fuel + 1, i, t =>
    let t2 := hmacSha256 prk (t ++ inf ++ [i])
    t2 ++ hkdfExpand prk inf fuel (i + 1) t2

/-- The HKDF (RFC 5869) key derivation function exactly as the script
implements it: extract with HMAC-SHA-256, then expand to the requested
length. -/
def hkdf (ikm salt inf : List Byte) (length : Nat) : List Byte :=
  let prk := hmacSha256 salt ikm
  (hkdfExpand prk inf ((length + 31) / 32) 1 []).take length

/-- The AES S-box. -/
def sbox : List Nat :=
  [99, 124, 119, 123, 242, 107, 111, 197, 48, 1, 103, 43, 254, 215, 171, 118,
   202, 130, 201, 125, 250, 89, 71, 240, 173, 212, 162, 175, 156, 164, 114, 192,
   183, 253, 147, 38, 54, 63, 247, 204, 52, 165, 229, 241, 113, 216, 49, 21,
   4, 199, 35, 195, 24, 150, 5, 154, 7, 18, 128, 226, 235, 39, 178, 117,
   9, 131, 44, 26, 27, 110, 90, 160, 82, 59, 214, 179, 41, 227, 47, 132,
   83, 209, 0, 237, 32, 252, 177, 91, 106, 203, 190, 57, 74, 76, 88, 207,
   208, 239, 170, 251, 67, 77, 51, 133, 69, 249, 2, 127, 80, 60, 159, 168,
   81, 163, 64, 143, 146, 157, 56, 245, 188, 182, 218, 33, 16, 255, 243, 210,
   205, 12, 19, 236, 95, 151, 68, 23, 196, 167, 126, 61, 100, 93, 25, 115,
   96, 129, 79, 220, 34, 42, 144, 136, 70, 238, 184, 20, 222, 94, 11, 219,
   224, 50, 58, 10, 73, 6, 36, 92, 194, 211, 172, 98, 145, 149, 228, 121,
   231, 200, 55, 109, 141, 213, 78, 169, 108, 86, 244, 234, 101, 122, 174, 8,
   186, 120, 37, 46, 28, 166, 180, 198, 232, 221, 116, 31, 75, 189, 139, 138,
   112, 62, 181, 102, 72, 3, 246, 14, 97, 53, 87, 185, 134, 193, 29, 158,
   225, 248, 152, 17, 105, 217, 142, 148, 155, 30, 135, 233, 206, 85, 40, 223,
   140, 161, 137, 13, 191, 230, 66, 104, 65, 153, 45, 15, 176, 84, 187, 22]

/-- S-box lookup of one byte. -/
def sboxAt (b : Nat) : Nat := sbox.getD b 0

/-- Multiplication by x in GF(2^8) modulo the AES polynomial. -/
def xtime (b : Nat) : Nat := if b < 128 then 2 * b else (2 * b) ^^^ 283

/-- Multiplication by 3 in GF(2^8). -/
def gmul3 (b : Nat) : Nat := xtime b ^^^ b

/-- Left rotation of a 32-bit word by one byte. -/
def rotWord (w : Nat) : Nat := ((w <<< 8) % u32) ||| (w >>> 24)

/-- The S-box applied to each byte of a 32-bit word. -/
def subWord (w : Nat) : Nat :=
  (sboxAt ((w >>> 24) &&& 255)) <<< 24 ||| (sboxAt ((w >>> 16) &&& 255)) <<< 16
    ||| (sboxAt ((w >>> 8) &&& 255)) <<< 8 ||| sboxAt (w &&& 255)

/-- AES round constants as high-byte words. -/
def rcon : List Nat :=
  [0x01000000, 0x02000000, 0x04000000, 0x08000000, 0x10000000, 0x20000000, 0x40000000]

/-- AES-256 key expansion loop appending one word per fuel step. -/
def aesExpandKey : Nat → List Nat → List Nat
  | 0, ws => ws
  | fuel + 1, ws =>
    let i := ws.length
    let t0 := ws.getD (i - 1) 0
    let t :=
      if i % 8 = 0 then (subWord (rotWord t0)) ^^^ rcon.getD (i / 8 - 1) 0
      else if i % 8 = 4 then subWord t0
      else t0
    aesExpandKey fuel (ws ++ [ws.getD (i - 8) 0 ^^^ t])

/-- The 60-word AES-256 key schedule of a 32-byte key. -/
def aesKeySchedule (key : List Byte) : List Nat := aesExpandKey 52 (bytesToWords key)

/-- The 16 bytes of round key r (words 4r..4r+3). -/
def roundKeyBytes (ks : List Nat) (r : Nat) : List Byte :=
  word32ToBytes (ks.getD (4 * r) 0) ++ word32ToBytes (ks.getD (4 * r + 1) 0)
    ++ word32ToBytes (ks.getD (4 * r + 2) 0) ++ word32ToBytes (ks.getD (4 * r + 3) 0)

/-- AES SubBytes. -/
def subBytes (s : List Byte) : List Byte := s.map sboxAt

/-- AES ShiftRows on the 16-byte column-major state. -/
def shiftRows (s : List Byte) : List Byte :=
  [s.getD 0 0, s.getD 5 0, s.getD 10 0, s.getD 15 0,
   s.getD 4 0, s.getD 9 0, s.getD 14 0, s.getD 3 0,
   s.getD 8 0, s.getD 13 0, s.getD 2 0, s.getD 7 0,
   s.getD 12 0, s.getD 1 0, s.getD 6 0, s.getD 11 0]

/-- AES MixColumns on one column. -/
def mixCol (a0 a1 a2 a3 : Nat) : List Nat :=
  [xtime a0 ^^^ gmul3 a1 ^^^ a2 ^^^ a3,
   a0 ^^^ xtime a1 ^^^ gmul3 a2 ^^^ a3,
   a0 ^^^ a1 ^^^ xtime a2 ^^^ gmul3 a3,
   gmul3 a0 ^^^ a1 ^^^ a2 ^^^ xtime a3]

/-- AES MixColumns on the 16-byte state. -/
def mixColumns (s : List Byte) : List Byte :=
  mixCol (s.getD 0 0) (s.getD 1 0) (s.getD 2 0) (s.getD 3 0)
    ++ mixCol (s.getD 4 0) (s.getD 5 0) (s.getD 6 0) (s.getD 7 0)
    ++ mixCol (s.getD 8 0) (s.getD 9 0) (s.getD 10 0) (s.getD 11 0)
    ++ mixCol (s.getD 12 0) (s.getD 13 0) (s.getD 14 0) (s.getD 15 0)

/-- AES AddRoundKey: bytewise xor of state and round key. -/
def addRoundKey (rk s : List Byte) : List Byte := List.zipWith (fun a b => a ^^^ b) s rk

/-- The 13 middle AES-256 rounds. -/
def aesRounds (ks : List Nat) : Nat → Nat → List Byte → List Byte
  | 0, _, s => s
  | fuel + 1, r, s =>
    aesRounds ks fuel (r + 1) (addRoundKey (roundKeyBytes ks r) (mixColumns (shiftRows (subBytes s))))

/-- AES-256 encryption of one 16-byte block under an expanded key schedule. -/
def aesEncryptBlock (ks : List Nat) (block : List Byte) : List Byte :=
  let s0 := addRoundKey (roundKeyBytes ks 0) block
  let s1 := aesRounds ks 13 1 s0
  addRoundKey (roundKeyBytes ks 14) (shiftRows (subBytes s1))

/-- A byte string as a big-endian natural number. -/
def bytesToNatBE (bs : List Byte) : Nat := bs.foldl (fun acc b => acc * 256 + b) 0

/-- Big-endian serialization of a natural number into a fixed number of bytes. -/
def natToBytesBE (len x : Nat) : List Byte :=
  (List.range len).map (fun i => (x >>> (8 * (len - 1 - i))) &&& 255)

/-- 2 to the 128, the modulus of GHASH block arithmetic. -/
def p2_128 : Nat := 340282366920938463463374607431768211456

/-- The GHASH reduction constant R = 11100001 followed by 120 zero bits. -/
def R128 : Nat := 0xe1000000000000000000000000000000

/-- The 128-step GHASH multiplication loop: x scans its bits from the most
significant, v is repeatedly halved modulo the GHASH polynomial, z
accumulates. -/
def gmul128Go : Nat → Nat → Nat → Nat → Nat
  | 0, _, _, z => z
  | fuel + 1, x, v, z =>
    let z2 := if x.testBit 127 then z ^^^ v else z
    let v2 := if v % 2 = 1 then (v >>> 1) ^^^ R128 else v >>> 1
    gmul128Go fuel ((x <<< 1) % p2_128) v2 z2

/-- GHASH multiplication of two 128-bit blocks. -/
def gmul128 (x y : Nat) : Nat := gmul128Go 128 x y 0

/-- GHASH over a list of 128-bit blocks with key h. -/
def ghashBlocks (h : Nat) : List Nat → Nat → Nat
  | [], y => y
  | b :: rest, y => ghashBlocks h rest (gmul128 (y ^^^ b) h)

/-- A byte string cut into 16-byte blocks (fuel bounds the recursion). -/
def chunks16 : Nat → List Byte → List (List Byte)
  | 0, _ => []
  | _, [] => []
  | fuel + 1, msg => msg.take 16 :: chunks16 fuel (msg.drop 16)

/-- A block zero-padded on the right to 16 bytes. -/
def padBlock16 (b : List Byte) : List Byte := b ++ List.replicate (16 - b.length) 0

/-- The GHASH key: AES encryption of the zero block. -/
def gcmH (ks : List Nat) : Nat := bytesToNatBE (aesEncryptBlock ks (List.replicate 16 0))

/-- The pre-counter block J0 of a 12-byte IV. -/
def gcmJ0 (iv : List Byte) : List Byte := iv ++ [0, 0, 0, 1]

/-- Counter block i: J0 with its last 32 bits incremented by i modulo 2^32. -/
def gcmCounterBlock (j0 : List Byte) (i : Nat) : List Byte :=
  j0.take 12 ++ word32ToBytes ((bytesToNatBE (j0.drop 12) + i) % u32)

/-- The GCM CTR keystream: n AES blocks over successive counter blocks
starting at index i. -/
def gcmKeystreamGo (ks : List Nat) (j0 : List Byte) : Nat → Nat → List Byte
  | 0, _ => []
  | n + 1, i => aesEncryptBlock ks (gcmCounterBlock j0 i) ++ gcmKeystreamGo ks j0 n (i + 1)

/-- The GCM CTR keystream of n blocks, starting at counter block 1 past J0. -/
def gcmKeystream (ks : List Nat) (j0 : List Byte) (n : Nat) : List Byte :=
  gcmKeystreamGo ks j0 n 1

/-- GCM CTR encryption and decryption: xor of the data with the keystream. -/
def gcmCtr (ks : List Nat) (j0 : List Byte) (data : List Byte) : List Byte :=
  List.zipWith (fun a b => a ^^^ b) data (gcmKeystream ks j0 ((data.length + 15) / 16))

/-- The GCM authentication tag over a ciphertext with no associated data:
GHASH of the padded ciphertext blocks and the length block, xored with the
AES encryption of J0. -/
def gcmTag (ks : List Nat) (j0 : List Byte) (ct : List Byte) : List Byte :=
  let h := gcmH ks
  let blocks := (chunks16 ct.length ct).map (fun b => bytesToNatBE (padBlock16 b))
  let s := ghashBlocks h (blocks ++ [8 * ct.length]) 0
  List.zipWith (fun a b => a ^^^ b) (aesEncryptBlock ks j0) (natToBytesBE 16 s)

/-- AES-256-GCM encryption with a 12-byte IV and no associated data,
returning the ciphertext and the 16-byte tag. -/
def gcmEncrypt (key iv pt : List Byte) : List Byte × List Byte :=
  let ks := aesKeySchedule key
  let j0 := gcmJ0 iv
  let ct := gcmCtr ks j0 pt
  (ct, gcmTag ks j0 ct)

/-- AES-256-GCM decryption: recompute the tag over the ciphertext and
compare; on a match return the CTR decryption, otherwise fail. This is the
semantics of createDecipheriv / setAuthTag / update / final in the script. -/
def gcmDecrypt (key iv ct tag : List Byte) : Option (List Byte) :=
  let ks := aesKeySchedule key
  let j0 := gcmJ0 iv
  if gcmTag ks j0 ct = tag then some (gcmCtr ks j0 ct) else none

/-- The secp256k1 field prime. -/
def secpP : Nat := 0xFFFFFFFFFFFFFFFFFFFFFFFFFFFFFFFFFFFFFFFFFFFFFFFFFFFFFFFEFFFFFC2F

/-- The secp256k1 group order. -/
def secpN : Nat := 0xFFFFFFFFFFFFFFFFFFFFFFFFFFFFFFFEBAAEDCE6AF48A03BBFD25E8CD0364141

/-- The x coordinate of the secp256k1 base point. -/
def secpGx : Nat := 0x79BE667EF9DCBBAC55A06295CE870B07029BFCDB2DCE28D959F2815B16F81798

/-- The y coordinate of the secp256k1 base point. -/
def secpGy : Nat := 0x483ADA7726A3C4655DA4FBFC0E1108A8FD17B448A68554199C47D08FFB10D4B8

/-- Square-and-multiply exponentiation modulo the field prime (fuel bounds
the recursion by the bit length of the exponent). -/
def powModGo : Nat → Nat → Nat → Nat → Nat
  | 0, _, _, acc => acc
  | fuel + 1, b, e, acc =>
    if e = 0 then acc
    else powModGo fuel ((b * b) % secpP) (e / 2) (if e % 2 = 1 then (acc * b) % secpP else acc)

/-- Exponentiation modulo the secp256k1 field prime. -/
def powModP (b e : Nat) : Nat := powModGo 257 (b % secpP) e 1

/-- Inverse modulo the field prime, by the little theorem of Fermat. -/
def invModP (a : Nat) : Nat := powModP a (secpP - 2)

/-- Subtraction modulo the field prime on canonical representatives. -/
def subModP (a b : Nat) : Nat := (a + secpP - b % secpP) % secpP

/-- An affine secp256k1 point; none is the point at infinity. -/
abbrev ECPoint := Option (Nat × Nat)

/-- Affine point doubling on secp256k1. -/
def ecDouble : ECPoint → ECPoint
  | none => none
  | some (x, y) =>
    if y = 0 then none
    else
      let l := (((3 * x * x) % secpP) * invModP ((2 * y) % secpP)) % secpP
      let xr := subModP (subModP ((l * l) % secpP) x) x
      let yr := subModP ((l * subModP x xr) % secpP) y
      some (xr, yr)

/-- Affine point addition on secp256k1. -/
def ecAdd : ECPoint → ECPoint → ECPoint
  | none, q => q
  | p, none => p
  | some (x1, y1), some (x2, y2) =>
    if x1 = x2 then
      if (y1 + y2) % secpP = 0 then none else ecDouble (some (x1, y1))
    else
      let l := ((subModP y2 y1) * invModP (subModP x2 x1)) % secpP
      let xr := subModP (subModP ((l * l) % secpP) x1) x2
      let yr := subModP ((l * subModP x1 xr) % secpP) y1
      some (xr, yr)

/-- Double-and-add scalar multiplication (fuel bounds the recursion by the
bit length of the scalar). -/
def ecMulGo : Nat → Nat → ECPoint → ECPoint
  | 0, _, _ => none
  | fuel + 1, k, p =>
    if k = 0 then none
    else
      let rest := ecMulGo fuel (k / 2) (ecDouble p)
      if k % 2 = 1 then ecAdd p rest else rest

/-- Scalar multiplication on secp256k1. -/
def ecMul (k : Nat) (p : ECPoint) : ECPoint := ecMulGo 257 k p

/-- Parse of a 65-byte uncompressed secp256k1 public key, validating the
format marker byte 0x04 and membership on the curve, as OpenSSL does when
computeSecret receives the ephemeral key. -/
def parseUncompressedPoint (bs : List Byte) : Option (Nat × Nat) :=
  if bs.length = 65 ∧ bs.getD 0 0 = 4 then
    let x := bytesToNatBE ((bs.drop 1).take 32)
    let y := bytesToNatBE (bs.drop 33)
    if x < secpP ∧ y < secpP ∧ (y * y) % secpP = ((x * x) % secpP * x + 7) % secpP then
      some (x, y)
    else none
  else none

/-- The ECDH shared secret of createECDH / computeSecret: the x coordinate
of the scalar product, as 32 big-endian bytes. -/
def ecdhComputeSecret (d : Nat) (pub : Nat × Nat) : Option (List Byte) :=
  match ecMul d (some pub) with
  | none => none
  | some (x, _) => some (natToBytesBE 32 x)

/-- The fixed ASCII domain-separation string of the key derivation. -/
def keyDerivationInfoBytes : List Byte := "app.inheritor.key-derivation-info".toList.map Char.toNat

/-- The 33-byte compressed-point normalization of the shared x coordinate:
marker byte 0x02 followed by the x bytes (zero-filled to 33 bytes, as the
script builds it in a 33-byte buffer). -/
def compressedPointBytes (x : List Byte) : List Byte :=
  2 :: (x ++ List.replicate (32 - x.length) 0)

/-- The key that decryptSymmetricKey uses to AES-256-GCM-decrypt the blob
ciphertext: HKDF of the SHA-256 of the compressed-point normalization, with
the salt of the blob, the fixed context string, and output length 32. -/
def deriveBlobKey (x salt : List Byte) : List Byte :=
  hkdf (sha256 (compressedPointBytes x)) salt keyDerivationInfoBytes 32

/-- The terminal errors of the two decryption routines. -/
inductive ClaimError
  | missingParameters
  | invalidPrivateKeyLength (n : Nat)
  | encryptedKeyTooShort (n : Nat)
  | invalidPrivateKey
  | invalidPublicKey
  | keyDecryptionFailed
  | encryptedDataTooShort (n : Nat)
  | invalidKeyLength (n : Nat)
  | assetDecryptionFailed
  deriving DecidableEq, Repr

deriving instance DecidableEq for Except

/-- The byte-level core of decryptSymmetricKey from the claim script, after
the hex decoding of its two arguments: validate the private key length, the
minimum blob length 65+32+12+32+16, slice the five fixed sub-ranges, run
ECDH over secp256k1, normalize and hash the shared x coordinate, derive the
key with HKDF, and AES-256-GCM-decrypt the ciphertext. -/
def decryptSymmetricKeyBytes (encryptedKeyBuffer privateKeyBuffer : List Byte) :
    Except ClaimError (List Byte) :=
  if privateKeyBuffer.length ≠ 32 then
    .error (.invalidPrivateKeyLength privateKeyBuffer.length)
  else if encryptedKeyBuffer.length < 65 + 32 + 12 + 32 + 16 then
    .error (.encryptedKeyTooShort encryptedKeyBuffer.length)
  else
    let ephemeralPublicKey := encryptedKeyBuffer.take 65
    let salt := (encryptedKeyBuffer.drop 65).take 32
    let nonce := (encryptedKeyBuffer.drop 97).take 12
    let ciphertext := (encryptedKeyBuffer.take (encryptedKeyBuffer.length - 16)).drop 109
    let tag := encryptedKeyBuffer.drop (encryptedKeyBuffer.length - 16)
    let d := bytesToNatBE privateKeyBuffer
    if ¬(1 ≤ d ∧ d < secpN) then .error .invalidPrivateKey
    else
      match parseUncompressedPoint ephemeralPublicKey with
      | none => .error .invalidPublicKey
      | some pub =>
        match ecdhComputeSecret d pub with
        | none => .error .invalidPublicKey
        | some rawSharedPoint =>
          let x := if 32 < rawSharedPoint.length then rawSharedPoint.take 32 else rawSharedPoint
          let encryptionKey := deriveBlobKey x salt
          match gcmDecrypt encryptionKey nonce ciphertext tag with
          | some pt => .ok pt
          | none => .error .keyDecryptionFailed

/-- Whether a string starts with the two characters 0x (the semantics of
startsWith of the script, on the character list of the string). -/
def startsWith0x (s : String) : Bool :=
  match s.toList with
  | '0' :: 'x' :: _ => true
  | _ => false

/-- The first n characters of a string. -/
def strTake (n : Nat) (s : String) : String := String.mk (s.toList.take n)

/-- A string without its first n characters. -/
def strDrop (n : Nat) (s : String) : String := String.mk (s.toList.drop n)

/-- ASCII lowercasing of a string, the semantics of toLowerCase on the
address and answer strings the scripts compare. -/
def lowerAscii (s : String) : String := String.mk (s.toList.map Char.toLower)

/-- The value of one hexadecimal digit. -/
def hexDigitVal (c : Char) : Option Nat :=
  if '0' ≤ c ∧ c ≤ '9' then some (c.toNat - 48)
  else if 'a' ≤ c ∧ c ≤ 'f' then some (c.toNat - 87)
  else if 'A' ≤ c ∧ c ≤ 'F' then some (c.toNat - 55)
  else none

/-- Hex decoding with the Buffer.from semantics of Node: consume digit
pairs, stopping at the first invalid pair or odd tail. -/
def hexDecodeList : List Char → List Byte
  | c1 :: c2 :: rest =>
    match hexDigitVal c1, hexDigitVal c2 with
    | some h, some l => (16 * h + l) :: hexDecodeList rest
    | _, _ => []
  | _ => []

/-- Hex decoding of a string to bytes. -/
def hexDecode (s : String) : List Byte := hexDecodeList s.toList

/-- decryptSymmetricKey of the claim script on its hex-string arguments:
reject missing parameters, strip optional 0x prefixes, hex-decode, and run
the byte-level core. -/
def decryptSymmetricKey (encryptedSymmetricKey privateKey : String) :
    Except ClaimError (List Byte) :=
  if encryptedSymmetricKey = "" ∨ privateKey = "" then .error .missingParameters
  else
    let privateKeyBuffer :=
      hexDecode (if startsWith0x privateKey then strDrop 2 privateKey else privateKey)
    let encryptedKeyBuffer :=
      hexDecode (if startsWith0x encryptedSymmetricKey then
        strDrop 2 encryptedSymmetricKey else encryptedSymmetricKey)
    decryptSymmetricKeyBytes encryptedKeyBuffer privateKeyBuffer

/-- decryptAsset from the claim script: enforce the minimum length
12 + 1 + 16, split into nonce (first 12 bytes), tag (last 16 bytes) and
ciphertext (the remainder), then AES-256-GCM-decrypt under the symmetric
key (createDecipheriv validates the 32-byte key length). -/
def decryptAsset (encryptedData symmetricKey : List Byte) : Except ClaimError (List Byte) :=
  if encryptedData.length < 12 + 1 + 16 then
    .error (.encryptedDataTooShort encryptedData.length)
  else
    let nonce := encryptedData.take 12
    let tag := encryptedData.drop (encryptedData.length - 16)
    let ciphertext := (encryptedData.take (encryptedData.length - 16)).drop 12
    if symmetricKey.length ≠ 32 then .error (.invalidKeyLength symmetricKey.length)
    else
      match gcmDecrypt symmetricKey nonce ciphertext tag with
      | some pt => .ok pt
      | none => .error .assetDecryptionFailed

/-- Modelled from the spec: the external encryption step (out of scope in
the repository) that produces an EncryptedSymmetricKeyBlob for a
beneficiary. Given the ephemeral public key bytes, the salt, the nonce, the
shared x coordinate that the ECDH agreement will reproduce, and the
plaintext symmetric key, it lays out ephemeral key, salt, nonce,
ciphertext and tag exactly as decryptSymmetricKey parses them. -/
def sealKeyBlob (ephemeralPublicKey salt nonce sharedX pt : List Byte) : List Byte :=
  let key := deriveBlobKey sharedX salt
  let sealed := gcmEncrypt key nonce pt
  ephemeralPublicKey ++ salt ++ nonce ++ sealed.1 ++ sealed.2

/-- The 65-byte uncompressed encoding of the secp256k1 base point, used as
a concrete ephemeral public key. -/
def ephemeralG : List Byte := 4 :: (natToBytesBE 32 secpGx ++ natToBytesBE 32 secpGy)

/-- The 32-byte private key of value 1 (a valid secp256k1 scalar). -/
def privOne : List Byte := natToBytesBE 32 1

/-- A concrete 32-byte salt. -/
def demoSalt : List Byte := List.replicate 32 0

/-- A concrete 12-byte nonce. -/
def demoNonce : List Byte := List.replicate 12 0

/-- The x coordinate of the base point as 32 bytes: the ECDH shared secret
between the private key 1 and the ephemeral key G. -/
def demoSharedX : List Byte :=
  [121, 190, 102, 126, 249, 220, 187, 172, 85, 160, 98, 149, 206, 135, 11, 7,
   2, 155, 252, 219, 45, 206, 40, 217, 89, 242, 129, 91, 22, 248, 23, 152]

/-- The derived blob decryption key for the shared x coordinate of G and
the all-zero salt: deriveBlobKey demoSharedX demoSalt. -/
def demoBlobKey : List Byte :=
  [192, 46, 127, 127, 21, 60, 193, 85, 54, 91, 253, 213, 235, 38, 182, 58,
   82, 247, 223, 182, 145, 30, 164, 113, 204, 9, 237, 16, 117, 53, 104, 31]

/-- A correctly encrypted 141-byte key blob carrying a 16-byte symmetric
key, built for the beneficiary private key 1 with ephemeral key G: the
bytes of sealKeyBlob ephemeralG demoSalt demoNonce demoSharedX
(List.replicate 16 7), laid out as ephemeral key, salt, nonce, ciphertext
and tag. -/
def demoBlob141 : List Byte :=
  [4, 121, 190, 102, 126, 249, 220, 187, 172, 85, 160, 98, 149, 206, 135, 11,
   7, 2, 155, 252, 219, 45, 206, 40, 217, 89, 242, 129, 91, 22, 248, 23,
   152, 72, 58, 218, 119, 38, 163, 196, 101, 93, 164, 251, 252, 14, 17, 8,
   168, 253, 23, 180, 72, 166, 133, 84, 25, 156, 71, 208, 143, 251, 16, 212,
   184, 0, 0, 0, 0, 0, 0, 0, 0, 0, 0, 0, 0, 0, 0, 0, 0, 0, 0, 0,
   0, 0, 0, 0, 0, 0, 0, 0, 0, 0, 0, 0, 0, 0, 0, 0, 0, 0, 0, 0,
   0, 0, 0, 0, 0, 95, 203, 197, 1, 171, 136, 150, 103, 105, 198, 40, 161,
   255, 47, 158, 122, 197, 220, 17, 141, 112, 116, 184, 214, 176, 9, 225, 81,
   47, 74, 88, 99]

/-- A correctly encrypted 158-byte key blob carrying the 33-byte plaintext
of sevens, built for the beneficiary private key 1 with ephemeral key G:
the bytes of sealKeyBlob ephemeralG demoSalt demoNonce demoSharedX
(List.replicate 33 7). Its tag is re-verified by the kernel in the
successful decryption below, which re-checks the construction. -/
def demoBlob158 : List Byte :=
  [4, 121, 190, 102, 126, 249, 220, 187, 172, 85, 160, 98, 149, 206, 135, 11,
   7, 2, 155, 252, 219, 45, 206, 40, 217, 89, 242, 129, 91, 22, 248, 23,
   152, 72, 58, 218, 119, 38, 163, 196, 101, 93, 164, 251, 252, 14, 17, 8,
   168, 253, 23, 180, 72, 166, 133, 84, 25, 156, 71, 208, 143, 251, 16, 212,
   184, 0, 0, 0, 0, 0, 0, 0, 0, 0, 0, 0, 0, 0, 0, 0, 0, 0, 0, 0,
   0, 0, 0, 0, 0, 0, 0, 0, 0, 0, 0, 0, 0, 0, 0, 0, 0, 0, 0, 0,
   0, 0, 0, 0, 0, 95, 203, 197, 1, 171, 136, 150, 103, 105, 198, 40, 161,
   255, 47, 158, 122, 83, 99, 117, 236, 30, 230, 78, 87, 83, 13, 179, 181,
   146, 31, 93, 56, 178, 234, 239, 212, 56, 198, 163, 182, 239, 114, 95, 168,
   253, 106, 82, 27, 47]

/-- The ciphertext field of demoBlob158 (33 bytes). -/
def demoCt158 : List Byte :=
  [95, 203, 197, 1, 171, 136, 150, 103, 105, 198, 40, 161, 255, 47, 158, 122,
   83, 99, 117, 236, 30, 230, 78, 87, 83, 13, 179, 181, 146, 31, 93, 56, 178]

/-- The authentication tag field of demoBlob158 (16 bytes). -/
def demoTag158 : List Byte :=
  [234, 239, 212, 56, 198, 163, 182, 239, 114, 95, 168, 253, 106, 82, 27, 47]

/-- The standard base64 alphabet. -/
def base64Alphabet : List Char :=
  "ABCDEFGHIJKLMNOPQRSTUVWXYZabcdefghijklmnopqrstuvwxyz0123456789+/".toList

/-- Standard base64 encoding with padding, three input bytes per four
output characters. -/
def base64EncodeGo : List Byte → List Char
  | a :: b :: c :: rest =>
    let n := (a * 256 + b) * 256 + c
    base64Alphabet.getD (n / 262144) 'A' :: base64Alphabet.getD (n / 4096 % 64) 'A'
      :: base64Alphabet.getD (n / 64 % 64) 'A' :: base64Alphabet.getD (n % 64) 'A'
      :: base64EncodeGo rest
  | [a, b] =>
    let n := (a * 256 + b) * 256
    [base64Alphabet.getD (n / 262144) 'A', base64Alphabet.getD (n / 4096 % 64) 'A',
     base64Alphabet.getD (n / 64 % 64) 'A', '=']
  | [a] =>
    let n := a * 65536
    [base64Alphabet.getD (n / 262144) 'A', base64Alphabet.getD (n / 4096 % 64) 'A', '=', '=']
  | [] => []

/-- Conversion of bytes to URL-safe base64 as the script performs it:
base64, then plus to minus, slash to underscore, and padding removed. -/
def toBase64Url (bs : List Byte) : String :=
  String.mk (((base64EncodeGo bs).map
    (fun c => if c = '+' then '-' else if c = '/' then '_' else c)).filter (fun c => c ≠ '='))

/-- The three candidate Arweave transaction id encodings that
retrieveAssetFromArweave tries, in their fixed order: raw hex without the
0x prefix, URL-safe base64, and hex with leading zero digits removed. -/
def possibleIds (transactionId : String) : List String :=
  let cleanHexId := if startsWith0x transactionId then strDrop 2 transactionId else transactionId
  let bytes := hexDecode cleanHexId
  [cleanHexId, toBase64Url bytes, String.mk (cleanHexId.toList.dropWhile (fun c => c = '0'))]

/-- An Arweave transaction tag. The script receives name and value as
URL-safe base64 and decodes them before use; the model carries the decoded
strings, since the decoding is a fixed bijection on the wire format. -/
structure ArweaveTag where
  name : String
  value : String
  deriving DecidableEq, Repr

/-- The metadata of an Arweave transaction: its tag list. -/
structure TxMeta where
  tags : List ArweaveTag
  deriving DecidableEq, Repr

/-- Splitting of a character list at every occurrence of a separator, the
semantics of split of the script with a one-character separator. -/
def splitOnCharList (sep : Char) : List Char → List (List Char)
  | [] => [[]]
  | c :: rest =>
    match splitOnCharList sep rest with
    | [] => [[]]
    | g :: gs => if c = sep then [] :: g :: gs else (c :: g) :: gs

/-- The last piece of the split of a string at a separator: the semantics
of the split-pop combination of the script. -/
def jsSplitLastPart (sep : Char) (s : String) : String :=
  String.mk ((splitOnCharList sep s.toList).getLastD [])

/-- The substring after the final occurrence of a separator (the whole
string when the separator does not occur), stated recursively; the bridge
lemma below identifies it with the split-pop of the script. -/
def afterFinalSep (sep : Char) : List Char → List Char
  | [] => []
  | c :: rest =>
    if sep ∈ rest then afterFinalSep sep rest
    else if c = sep then rest
    else c :: rest

/-- The substring of a string after the final slash. -/
def substringAfterFinalSlash (s : String) : String := String.mk (afterFinalSep '/' s.toList)

/-- The file extension the script infers from a content type: the last
piece of the split at slashes, with the falsy-empty fallback bin. -/
def extensionFromContentType (contentType : String) : String :=
  let ext := jsSplitLastPart '/' contentType
  if ext = "" then "bin" else ext

/-- Whether a tag is the Content-Type tag. -/
def isContentTypeTag (t : ArweaveTag) : Bool := t.name == "Content-Type"

/-- The file extension retrieveAssetFromArweave extracts from a tag list:
bin by default, else the extension of the first Content-Type tag value. -/
def extensionFromTags (tags : List ArweaveTag) : String :=
  match tags.find? isContentTypeTag with
  | none => "bin"
  | some t => extensionFromContentType t.value

/-- The failure message of retrieveAssetFromArweave when every candidate
encoding has been exhausted. -/
def arweaveFailMessage : String :=
  "Failed to retrieve asset from Arweave with any of the attempted transaction ID formats"

/-- The trial loop of retrieveAssetFromArweave over the candidate id list:
for each candidate, probe the transaction metadata; on probe success
extract the extension from that candidate and fetch the payload; any
failure moves to the next candidate. The second component records the
candidates attempted, in order. -/
def retrieveGo (probe : String → Option TxMeta) (fetchData : String → Option (List Byte)) :
    List String → (Except String (List Byte × String)) × List String
  | [] => (.error arweaveFailMessage, [])
  | cand :: rest =>
    match probe cand with
    | none =>
      let r := retrieveGo probe fetchData rest
      (r.1, cand :: r.2)
    | some meta =>
      let fileExtension := extensionFromTags meta.tags
      match fetchData cand with
      | none =>
        let r := retrieveGo probe fetchData rest
        (r.1, cand :: r.2)
      | some data => (.ok (data, fileExtension), [cand])

/-- retrieveAssetFromArweave of the claim script, with the two network
reads (metadata probe and payload download) as oracles: try the three
candidate encodings in order and return payload bytes and extension of the
first that fully succeeds. -/
def retrieveAssetFromArweave (probe : String → Option TxMeta)
    (fetchData : String → Option (List Byte)) (transactionId : String) :
    Except String (List Byte × String) :=
  (retrieveGo probe fetchData (possibleIds transactionId)).1

/-- The candidate encodings retrieveAssetFromArweave actually attempts, in
order. -/
def retrieveAttempts (probe : String → Option TxMeta)
    (fetchData : String → Option (List Byte)) (transactionId : String) : List String :=
  (retrieveGo probe fetchData (possibleIds transactionId)).2

/-- Whether a candidate encoding fully succeeds: its metadata probe and its
payload download both answer. -/
def encodingWorks (probe : String → Option TxMeta)
    (fetchData : String → Option (List Byte)) (cand : String) : Bool :=
  (probe cand).isSome && (fetchData cand).isSome

/-- The readable names of the on-chain inheritance states, as the
STATE_NAMES table of the claim script. -/
def stateName (s : Nat) : String :=
  match s with
  | 0 => "Designated"
  | 1 => "Claimable"
  | 2 => "Claimed"
  | 3 => "Revoked"
  | 4 => "Purged"
  | _ => "undefined"

/-- The state report line isInheritanceClaimable prints for every looked-up
record. -/
def stateLogLine (s : Nat) : String :=
  "Inheritance state: " ++ stateName s ++ " (" ++ toString s ++ ")"

/-- isInheritanceClaimable of the claim script: state 1 is Claimable. -/
def isInheritanceClaimable (state : Nat) : Bool := state == 1

/-- The stages of the claim pipeline, in the order claimInheritance runs
them. -/
inductive Stage
  | checkClaimable
  | fetchArweaveId
  | retrieveKey
  | decryptKey
  | fetchAsset
  | decryptAssetStage
  | saveFile
  deriving DecidableEq, Repr

/-- The terminal errors of the claim pipeline. -/
inductive PipelineError
  | notClaimable
  | keyNotFound
  | decryptError (e : ClaimError)
  | assetUnavailable
  deriving DecidableEq, Repr

/-- The environment of one claim attempt: the on-chain record fields the
pipeline reads, the caller identity, the key-distribution response and the
Arweave oracles. -/
structure ClaimEnv where
  inheritanceId : String
  beneficiaryAddress : String
  recordBeneficiaryEOA : String
  state : Nat
  arweaveTransactionId : String
  encryptedSymmetricKey : Option String
  privateKey : String
  probe : String → Option TxMeta
  fetchData : String → Option (List Byte)

/-- The observable outcome of one claim attempt: the result, the stages
that ran, and the console lines the model tracks (the state report of the
gate, and any beneficiary warning; the claim script emits none). -/
structure ClaimOutcome where
  result : Except PipelineError (String × List Byte)
  stagesRun : List Stage
  log : List String
  deriving DecidableEq, Repr

/-- The beneficiary mismatch warning of the check tool. -/
def beneficiaryWarning : String := "WARNING: You are not the beneficiary of this inheritance!"

/-- claimInheritance of the claim script: gate on the Claimable state, then
fetch the Arweave transaction id, fetch and decrypt the symmetric key,
retrieve the asset, decrypt it and name the output file. The function reads
no identity field: the caller and record beneficiary identities do not
occur in its body. -/
def claimInheritance (env : ClaimEnv) : ClaimOutcome :=
  let gateLog := [stateLogLine env.state]
  if ¬ isInheritanceClaimable env.state then
    { result := .error .notClaimable, stagesRun := [.checkClaimable], log := gateLog }
  else
    match env.encryptedSymmetricKey with
    | none =>
      { result := .error .keyNotFound,
        stagesRun := [.checkClaimable, .fetchArweaveId, .retrieveKey], log := gateLog }
    | some encryptedSymmetricKey =>
      let privateKeyWithout0x :=
        if startsWith0x env.privateKey then strDrop 2 env.privateKey else env.privateKey
      match decryptSymmetricKey encryptedSymmetricKey privateKeyWithout0x with
      | .error e =>
        { result := .error (.decryptError e),
          stagesRun := [.checkClaimable, .fetchArweaveId, .retrieveKey, .decryptKey],
          log := gateLog }
      | .ok symmetricKey =>
        match retrieveAssetFromArweave env.probe env.fetchData env.arweaveTransactionId with
        | .error _ =>
          { result := .error .assetUnavailable,
            stagesRun := [.checkClaimable, .fetchArweaveId, .retrieveKey, .decryptKey, .fetchAsset],
            log := gateLog }
        | .ok (encryptedAsset, fileExtension) =>
          match decryptAsset encryptedAsset symmetricKey with
          | .error e =>
            { result := .error (.decryptError e),
              stagesRun := [.checkClaimable, .fetchArweaveId, .retrieveKey, .decryptKey,
                .fetchAsset, .decryptAssetStage],
              log := gateLog }
          | .ok decryptedAsset =>
            { result := .ok ("inheritance_" ++ strTake 8 env.inheritanceId ++ "." ++ fileExtension,
                decryptedAsset),
              stagesRun := [.checkClaimable, .fetchArweaveId, .retrieveKey, .decryptKey,
                .fetchAsset, .decryptAssetStage, .saveFile],
              log := gateLog }

/-- The beneficiary identity gate of checkInheritanceClaimability in the
check tool: on a lowercased identity mismatch, print the warning and
continue only when the user answers yes; on a match, proceed silently.
Returns whether the check proceeds, and the warning lines printed. -/
def checkClaimabilityIdentityGate (recordBeneficiaryEOA callerAddress continueAnyway : String) :
    Bool × List String :=
  if lowerAscii recordBeneficiaryEOA ≠ lowerAscii callerAddress then
    if lowerAscii continueAnyway ≠ "yes" then (false, [beneficiaryWarning])
    else (true, [beneficiaryWarning])
  else (true, [])

/-- A concrete claim environment whose caller identity differs from the
record beneficiary identity while the record is Claimable; the key blob the
distribution service returns is an undersized 100-byte blob. -/
def demoEnvMismatch : ClaimEnv :=
  { inheritanceId := "0x" ++ String.mk (List.replicate 64 '0')
    beneficiaryAddress := "0xBBBBBBBBBBBBBBBBBBBBBBBBBBBBBBBBBBBBBBBB"
    recordBeneficiaryEOA := "0xAAAAAAAAAAAAAAAAAAAAAAAAAAAAAAAAAAAAAAAA"
    state := 1
    arweaveTransactionId := "0x" ++ String.mk (List.replicate 64 '0')
    encryptedSymmetricKey := some (String.mk (List.replicate 200 '0'))
    privateKey := String.mk (List.replicate 64 '1')
    probe := fun _ => none
    fetchData := fun _ => none }

/-- The same environment with the record in the Revoked state. -/
def demoEnvRevoked : ClaimEnv := { demoEnvMismatch with state := 3 }

/-- An Arweave metadata oracle whose existence probe succeeds for every
candidate id, with an empty tag list. -/
def probeAll : String → Option TxMeta := fun _ => some { tags := [] }

/-- An Arweave payload oracle that fails for every candidate id. -/
def fetchNone : String → Option (List Byte) := fun _ => none

/-- A concrete 32-byte transaction id in its on-chain hex form. -/
def demoTxId : String := "0x" ++ String.mk (List.replicate 63 '0' ++ ['1'])

/-- An Arweave payload oracle that succeeds only for the second candidate
encoding of demoTxId. -/
def fetchSecondOnly : String → Option (List Byte) :=
  fun cand => if cand = (possibleIds demoTxId).getD 1 "" then some [1, 2, 3] else none

/-- A concrete tag list with a Content-Type tag after an unrelated tag. -/
def demoTags : List ArweaveTag :=
  [{ name := "App", value := "inheritor" }, { name := "Content-Type", value := "application/pdf" }]

/-- A SHA-256 digest is 32 bytes. -/
theorem sha256_length (msg : List Byte) : (sha256 msg).length = 32 := by
  simp [sha256, word32ToBytes]

/-- An HMAC-SHA-256 digest is 32 bytes. -/
theorem hmacSha256_length (key msg : List Byte) : (hmacSha256 key msg).length = 32 :=
  sha256_length _

/-- The HKDF of the script at output length 32 runs its expansion loop
once, so it is exactly the double HMAC of extract and first expand block. -/
theorem hkdf_32 (ikm salt inf : List Byte) :
    hkdf ikm salt inf 32 = hmacSha256 (hmacSha256 salt ikm) (inf ++ [1]) := by
  show (hkdfExpand (hmacSha256 salt ikm) inf ((32 + 31) / 32) 1 []).take 32 = _
  norm_num [hkdfExpand]
  exact le_of_eq (hmacSha256_length _ _)

/-- The ShiftRows output is 16 bytes whatever its input. -/
theorem shiftRows_length (s : List Byte) : (shiftRows s).length = 16 := rfl

/-- A round key is 16 bytes. -/
theorem roundKeyBytes_length (ks : List Nat) (r : Nat) : (roundKeyBytes ks r).length = 16 := by
  simp [roundKeyBytes, word32ToBytes]

/-- An AES block encryption outputs 16 bytes. -/
theorem aesEncryptBlock_length (ks : List Nat) (block : List Byte) :
    (aesEncryptBlock ks block).length = 16 := by
  simp [aesEncryptBlock, addRoundKey, List.length_zipWith, shiftRows_length, roundKeyBytes_length]

/-- The CTR keystream loop yields 16 bytes per block. -/
theorem gcmKeystreamGo_length (ks : List Nat) (j0 : List Byte) (n i : Nat) :
    (gcmKeystreamGo ks j0 n i).length = 16 * n := by
  induction n generalizing i with
  | zero => rfl
  | succ m ih =>
    simp [gcmKeystreamGo, aesEncryptBlock_length, ih]
    omega

/-- CTR encryption preserves the data length: the keystream of the ceiling
number of blocks is at least as long as the data. -/
theorem gcmCtr_length (ks : List Nat) (j0 : List Byte) (data : List Byte) :
    (gcmCtr ks j0 data).length = data.length := by
  have h1 : 16 * ((data.length + 15) / 16) + (data.length + 15) % 16 = data.length + 15 :=
    Nat.div_add_mod _ _
  have h2 : (data.length + 15) % 16 < 16 := Nat.mod_lt _ (by norm_num)
  simp [gcmCtr, gcmKeystream, List.length_zipWith, gcmKeystreamGo_length]
  omega

/-- A successful GCM decryption returns the CTR decryption of the
ciphertext. -/
theorem gcmDecrypt_ok (key iv ct tag pt : List Byte) (h : gcmDecrypt key iv ct tag = some pt) :
    pt = gcmCtr (aesKeySchedule key) (gcmJ0 iv) ct := by
  simp only [gcmDecrypt] at h
  split at h
  · exact (Option.some.inj h).symm
  · exact Option.noConfusion h

/-- A successful GCM decryption preserves the ciphertext length. -/
theorem gcmDecrypt_ok_length (key iv ct tag pt : List Byte)
    (h : gcmDecrypt key iv ct tag = some pt) : pt.length = ct.length := by
  rw [gcmDecrypt_ok key iv ct tag pt h, gcmCtr_length]

/-- A blob below the 157-byte minimum is rejected with the too-short error
carrying its length, whenever the private key has the 32 bytes that let
the length check be reached. -/
theorem dskB_tooShort (blob priv : List Byte) (hp : priv.length = 32)
    (hL : blob.length < 65 + 32 + 12 + 32 + 16) :
    decryptSymmetricKeyBytes blob priv = .error (.encryptedKeyTooShort blob.length) := by
  simp [decryptSymmetricKeyBytes, hp, hL]

/-- A blob at or above the 157-byte minimum is never rejected with the
too-short error: every later failure carries a different error. -/
theorem dskB_not_tooShort (blob priv : List Byte)
    (hL : ¬ blob.length < 65 + 32 + 12 + 32 + 16) :
    ∀ m, decryptSymmetricKeyBytes blob priv ≠ .error (.encryptedKeyTooShort m) := by
  intro m h
  simp only [decryptSymmetricKeyBytes] at h
  split at h <;> repeat first | simp_all | split at h

/-- C4: for every parsed key blob, the key used to AES-256-GCM-decrypt the
blob ciphertext (deriveBlobKey applied to the shared x coordinate and the
blob salt, as decryptSymmetricKeyBytes does) is the HKDF-SHA-256 of the
SHA-256 of the 0x02-prefixed compressed point, with the blob salt, the
fixed ASCII context string and output length 32, and this equals the
double HMAC-SHA-256 of extract and expand. -/
theorem c4_derived_key :
    (∀ x salt : List Byte,
      deriveBlobKey x salt = hkdf (sha256 (compressedPointBytes x)) salt keyDerivationInfoBytes 32) ∧
    (∀ x salt : List Byte,
      deriveBlobKey x salt =
        hmacSha256 (hmacSha256 salt (sha256 (compressedPointBytes x)))
          (keyDerivationInfoBytes ++ [1])) :=
  ⟨fun _ _ => rfl, fun x salt => hkdf_32 (sha256 (compressedPointBytes x)) salt keyDerivationInfoBytes⟩

/-- C1 counterexample: a 126-byte blob (125 fixed bytes plus one ciphertext
byte) is not below 126 bytes, yet decryptSymmetricKey rejects it as too
short: the claimed 126-byte threshold is wrong, the code requires 157. -/
theorem c1_counterexample :
    ¬ ((List.replicate 126 (0 : Nat)).length < 126) ∧
    decryptSymmetricKeyBytes (List.replicate 126 0) (List.replicate 32 1) =
      .error (.encryptedKeyTooShort 126) := by
  constructor
  · decide
  · exact dskB_tooShort _ _ (by decide) (by decide)

/-- C1 as amended: with a 32-byte private key, decryptSymmetricKey rejects
a blob with the too-short error exactly when its length is below
65+32+12+32+16 = 157 bytes, the fixed fields plus a 32-byte minimum
ciphertext; in particular a 100-byte blob is rejected and every blob of
157 bytes or more passes the length check. -/
theorem c1_amended_theorem (blob priv : List Byte) (hp : priv.length = 32) :
    (∃ m, decryptSymmetricKeyBytes blob priv = .error (.encryptedKeyTooShort m)) ↔
      blob.length < 65 + 32 + 12 + 32 + 16 := by
  constructor
  · rintro ⟨m, hm⟩
    by_contra hL
    exact dskB_not_tooShort blob priv hL m hm
  · intro hL
    exact ⟨blob.length, dskB_tooShort blob priv hp hL⟩

/-- C1 witness: the 100-byte blob of the malformed-blob scenario is
rejected by the length check. -/
theorem c1_amended_witness :
    ∃ m, decryptSymmetricKeyBytes (List.replicate 100 0) (List.replicate 32 1) =
      .error (.encryptedKeyTooShort m) :=
  (c1_amended_theorem (List.replicate 100 0) (List.replicate 32 1) (by decide)).mpr (by decide)

/-- C2 as amended: every 141-byte key blob, including the correctly
encrypted end-to-end blob of the scenario, is rejected as malformed (too
short, minimum 157 bytes) for every 32-byte private key: no 16-byte key is
returned under the correct private key and no tag-mismatch failure is
reached under an unrelated one. The end-to-end scenario needs a blob with
at least 32 ciphertext bytes. -/
theorem c2_amended_theorem (blob priv : List Byte) (hb : blob.length = 141)
    (hp : priv.length = 32) :
    decryptSymmetricKeyBytes blob priv = .error (.encryptedKeyTooShort 141) ∧
    (∀ k, decryptSymmetricKeyBytes blob priv ≠ .ok k) ∧
    decryptSymmetricKeyBytes blob priv ≠ .error .keyDecryptionFailed := by
  have h : decryptSymmetricKeyBytes blob priv = .error (.encryptedKeyTooShort 141) := by
    have := dskB_tooShort blob priv hp (by omega)
    rwa [hb] at this
  refine ⟨h, fun k => ?_, ?_⟩
  · rw [h]; simp
  · rw [h]; simp

/-- C3 as amended: whenever decryptSymmetricKey succeeds, the key it
returns has exactly the length of the blob ciphertext, namely the blob
length minus the 125 fixed-field bytes; this is at least 32 but equals 32
only for a 157-byte blob. -/
theorem c3_amended_theorem (blob priv k : List Byte)
    (h : decryptSymmetricKeyBytes blob priv = .ok k) :
    k.length = blob.length - 125 ∧ 32 ≤ k.length := by
  by_cases h1 : priv.length ≠ 32
  · simp [decryptSymmetricKeyBytes, if_pos h1] at h
  by_cases h2 : blob.length < 65 + 32 + 12 + 32 + 16
  · simp [decryptSymmetricKeyBytes, if_neg h1, if_pos h2] at h
  simp only [decryptSymmetricKeyBytes, if_neg h1, if_neg h2] at h
  split at h <;> try exact Except.noConfusion h
  split at h <;> try exact Except.noConfusion h
  split at h <;> try exact Except.noConfusion h
  split at h <;> try exact Except.noConfusion h
  rename_i pt heq
  have hk : pt = k := Except.ok.inj h
  have hlen := gcmDecrypt_ok_length _ _ _ _ _ heq
  subst hk
  rw [hlen]
  simp only [List.length_drop, List.length_take]
  omega

/-- The split of a character list is never the empty list of pieces. -/
theorem splitOnCharList_ne_nil (sep : Char) (l : List Char) : splitOnCharList sep l ≠ [] := by
  cases l with
  | nil => simp [splitOnCharList]
  | cons c rest =>
    simp only [splitOnCharList]
    split
    · simp
    · split <;> simp

/-- A list without the separator splits into the single piece itself. -/
theorem splitOnCharList_no_sep (sep : Char) (l : List Char) (h : sep ∉ l) :
    splitOnCharList sep l = [l] := by
  induction l with
  | nil => rfl
  | cons c rest ih =>
    simp only [List.mem_cons, not_or] at h
    simp only [splitOnCharList, ih h.2]
    rw [if_neg (fun hx => h.1 hx.symm)]

/-- A split into a single piece means the separator does not occur and the
piece is the whole list. -/
theorem splitOnCharList_singleton (sep : Char) (l g : List Char)
    (h : splitOnCharList sep l = [g]) : g = l ∧ sep ∉ l := by
  induction l generalizing g with
  | nil =>
    simp only [splitOnCharList] at h
    injection h with h1 h2
    subst h1
    exact ⟨rfl, by simp⟩
  | cons c rest ih =>
    simp only [splitOnCharList] at h
    cases hs : splitOnCharList sep rest with
    | nil => exact absurd hs (splitOnCharList_ne_nil sep rest)
    | cons g0 gs =>
      simp only [hs] at h
      by_cases hc : c = sep
      · rw [if_pos hc] at h
        simp at h
      · rw [if_neg hc] at h
        injection h with h1 h2
        rw [h2] at hs
        obtain ⟨hg0, hnot⟩ := ih g0 hs
        subst hg0
        refine ⟨h1.symm, ?_⟩
        simp only [List.mem_cons, not_or]
        exact ⟨fun hx => hc hx.symm, hnot⟩

/-- The last piece of the split at a separator is the substring after the
final occurrence of the separator. -/
theorem splitOnCharList_getLastD (sep : Char) (l : List Char) :
    (splitOnCharList sep l).getLastD [] = afterFinalSep sep l := by
  induction l with
  | nil => rfl
  | cons c rest ih =>
    simp only [splitOnCharList]
    cases hs : splitOnCharList sep rest with
    | nil => exact absurd hs (splitOnCharList_ne_nil sep rest)
    | cons g0 gs =>
      rw [hs] at ih
      simp only [hs]
      by_cases hmem : sep ∈ rest
      · simp only [afterFinalSep, if_pos hmem]
        by_cases hc : c = sep
        · rw [if_pos hc, ← ih]
          simp [List.getLastD_cons]
        · rw [if_neg hc]
          cases gs with
          | nil =>
            obtain ⟨hg0, hnot⟩ := splitOnCharList_singleton sep rest g0 hs
            exact absurd hmem hnot
          | cons g1 gs1 =>
            rw [← ih]
            simp [List.getLastD_cons]
      · have hsr := splitOnCharList_no_sep sep rest hmem
        rw [hs] at hsr
        injection hsr with hg0 hgs
        subst hg0
        subst hgs
        simp only [afterFinalSep, if_neg hmem]
        by_cases hc : c = sep
        · rw [if_pos hc, if_pos hc]
          rfl
        · rw [if_neg hc, if_neg hc]
          rfl

/-- The split-pop of the script equals the substring after the final
occurrence of the separator. -/
theorem jsSplitLastPart_eq (sep : Char) (s : String) :
    jsSplitLastPart sep s = String.mk (afterFinalSep sep s.toList) :=
  congrArg String.mk (splitOnCharList_getLastD sep s.toList)

/-- C10: when the tag list has no Content-Type tag the inferred extension
is bin; when it has one, the extension is the substring of the decoded
content-type value after the final slash, falling back to bin when that
substring is empty. -/
theorem c10_extension (tags : List ArweaveTag) :
    (tags.find? isContentTypeTag = none → extensionFromTags tags = "bin") ∧
    (∀ t, tags.find? isContentTypeTag = some t →
      extensionFromTags tags =
        (if substringAfterFinalSlash t.value = "" then "bin"
         else substringAfterFinalSlash t.value)) := by
  constructor
  · intro h
    simp [extensionFromTags, h]
  · intro t h
    simp [extensionFromTags, h, extensionFromContentType, jsSplitLastPart_eq,
      substringAfterFinalSlash]

/-- C10 witness: the concrete tag list with Content-Type application/pdf
yields extension pdf, and the empty tag list yields bin. -/
theorem c10_extension_witness :
    extensionFromTags demoTags = "pdf" ∧ extensionFromTags [] = "bin" := by
  constructor
  · have h := (c10_extension demoTags).2 { name := "Content-Type", value := "application/pdf" }
      (by decide)
    rw [h]
    decide
  · exact (c10_extension []).1 rfl

/-- The result of the retrieval loop is determined by the first candidate
whose probe and download both succeed, and carries that candidate's
metadata extension; when no candidate works, the loop fails with the
exhaustion message. -/
theorem retrieveGo_result (probe : String → Option TxMeta) (fd : String → Option (List Byte))
    (ids : List String) :
    (retrieveGo probe fd ids).1 =
      (match ids.find? (encodingWorks probe fd) with
       | some cand => .ok ((fd cand).getD [],
           extensionFromTags ((probe cand).getD { tags := [] }).tags)
       | none => .error arweaveFailMessage) := by
  induction ids with
  | nil => rfl
  | cons cand rest ih =>
    cases hp : probe cand with
    | none =>
      have hw : encodingWorks probe fd cand = false := by simp [encodingWorks, hp]
      simp [retrieveGo, hp, List.find?, hw, ih]
    | some meta =>
      cases hf : fd cand with
      | none =>
        have hw : encodingWorks probe fd cand = false := by simp [encodingWorks, hp, hf]
        simp [retrieveGo, hp, hf, List.find?, hw, ih]
      | some data =>
        have hw : encodingWorks probe fd cand = true := by simp [encodingWorks, hp, hf]
        simp [retrieveGo, hp, hf, List.find?, hw]

/-- The attempted candidates are an initial segment of the candidate list:
no candidate is attempted twice and none is attempted after a success. -/
theorem retrieveGo_attempts_take (probe : String → Option TxMeta)
    (fd : String → Option (List Byte)) (ids : List String) :
    (retrieveGo probe fd ids).2 = ids.take ((retrieveGo probe fd ids).2).length := by
  induction ids with
  | nil => rfl
  | cons cand rest ih =>
    cases hp : probe cand with
    | none =>
      simp only [retrieveGo, hp]
      simp only [List.length_cons, List.take_succ_cons]
      rw [← ih]
    | some meta =>
      cases hf : fd cand with
      | none =>
        simp only [retrieveGo, hp, hf]
        simp only [List.length_cons, List.take_succ_cons]
        rw [← ih]
      | some data =>
        simp [retrieveGo, hp, hf]

/-- C7 as amended: asset retrieval tries the three encodings in their
fixed order and selects the first whose existence probe AND payload
download both succeed (retaining that encoding's metadata extension); it
fails exactly when no encoding fully succeeds, and the attempted
candidates form an initial segment of the fixed candidate list, so no
failed encoding is ever retried. -/
theorem c7_locator_fallback (probe : String → Option TxMeta)
    (fetchData : String → Option (List Byte)) (transactionId : String) :
    (possibleIds transactionId).length = 3 ∧
    retrieveAssetFromArweave probe fetchData transactionId =
      (match (possibleIds transactionId).find? (encodingWorks probe fetchData) with
       | some cand => .ok ((fetchData cand).getD [],
           extensionFromTags ((probe cand).getD { tags := [] }).tags)
       | none => .error arweaveFailMessage) ∧
    retrieveAttempts probe fetchData transactionId =
      (possibleIds transactionId).take (retrieveAttempts probe fetchData transactionId).length :=
  ⟨by simp [possibleIds], retrieveGo_result probe fetchData (possibleIds transactionId),
   retrieveGo_attempts_take probe fetchData (possibleIds transactionId)⟩

/-- C7 counterexample: with oracles whose existence probes succeed for
every candidate while downloads fail, retrieval fails although not all
probes failed; and with a download succeeding only under the second
encoding, retrieval selects the second encoding after attempting the first
whose probe had succeeded. Selection is thus not by probe success alone. -/
theorem c7_counterexample :
    (possibleIds demoTxId).all (fun cand => (probeAll cand).isSome) = true ∧
    retrieveAssetFromArweave probeAll fetchNone demoTxId = .error arweaveFailMessage ∧
    retrieveAssetFromArweave probeAll fetchSecondOnly demoTxId = .ok ([1, 2, 3], "bin") ∧
    retrieveAttempts probeAll fetchSecondOnly demoTxId =
      [(possibleIds demoTxId).getD 0 "", (possibleIds demoTxId).getD 1 ""] := by
  refine ⟨rfl, rfl, ?_, ?_⟩ <;> decide

/-- C5: the claim gate accepts exactly state 1 as claimable; on any other
state the pipeline stops at the gate with the not-claimable error having
run no later stage, and the state line it reports distinguishes the four
non-claimable named states. -/
theorem c5_claim_gate :
    (∀ s : Nat, isInheritanceClaimable s = true ↔ s = 1) ∧
    (∀ env : ClaimEnv, env.state ≠ 1 →
      claimInheritance env =
        { result := .error .notClaimable, stagesRun := [Stage.checkClaimable],
          log := [stateLogLine env.state] }) ∧
    (∀ s t : Nat, s ∈ ([0, 2, 3, 4] : List Nat) → t ∈ ([0, 2, 3, 4] : List Nat) →
      stateLogLine s = stateLogLine t → s = t) := by
  refine ⟨fun s => ?_, fun env hs => ?_, fun s t hs ht => ?_⟩
  · simp [isInheritanceClaimable]
  · have hcl : isInheritanceClaimable env.state = false := by
      simp [isInheritanceClaimable, hs]
    simp [claimInheritance, hcl]
  · fin_cases hs <;> fin_cases ht <;> decide

/-- C5 witness: a record in the Revoked state stops the concrete pipeline
at the gate, and state 1 is accepted. -/
theorem c5_claim_gate_witness :
    claimInheritance demoEnvRevoked =
      { result := .error .notClaimable, stagesRun := [Stage.checkClaimable],
        log := [stateLogLine demoEnvRevoked.state] } ∧
    isInheritanceClaimable 1 = true :=
  ⟨c5_claim_gate.2.1 demoEnvRevoked (by decide), (c5_claim_gate.1 1).mpr rfl⟩

/-- C6 counterexample: in a concrete environment whose caller identity
differs from the record beneficiary identity (also after lowercasing)
while the state is Claimable, the claim pipeline passes the gate and runs
on into key decryption: no beneficiary warning is emitted, no override is
consulted and the gate does not fail, so the claim pipeline performs no
identity verification at its gate. -/
theorem c6_counterexample :
    demoEnvMismatch.state = 1 ∧
    lowerAscii demoEnvMismatch.beneficiaryAddress ≠
      lowerAscii demoEnvMismatch.recordBeneficiaryEOA ∧
    (claimInheritance demoEnvMismatch).stagesRun =
      [Stage.checkClaimable, Stage.fetchArweaveId, Stage.retrieveKey, Stage.decryptKey] ∧
    beneficiaryWarning ∉ (claimInheritance demoEnvMismatch).log ∧
    (claimInheritance demoEnvMismatch).result ≠ .error .notClaimable := by
  refine ⟨rfl, by decide, by decide, by decide, by decide⟩

/-- C6 as amended: the claim pipeline is invariant under the caller and
record beneficiary identities, performing no identity check; the
beneficiary verification with an overridable warning lives in the check
tool, whose gate warns on a lowercased mismatch and proceeds exactly when
the caller answers yes, and proceeds silently on a match. -/
theorem c6_identity_check :
    (∀ (env : ClaimEnv) (b r : String),
      claimInheritance { env with beneficiaryAddress := b, recordBeneficiaryEOA := r } =
        claimInheritance env) ∧
    (∀ recB caller ans : String, lowerAscii recB ≠ lowerAscii caller →
      (checkClaimabilityIdentityGate recB caller ans).2 = [beneficiaryWarning] ∧
      ((checkClaimabilityIdentityGate recB caller ans).1 = true ↔ lowerAscii ans = "yes")) ∧
    (∀ recB caller ans : String, lowerAscii recB = lowerAscii caller →
      checkClaimabilityIdentityGate recB caller ans = (true, [])) := by
  refine ⟨fun env b r => by cases env; rfl, fun recB caller ans hne => ?_,
    fun recB caller ans he => ?_⟩
  · simp only [checkClaimabilityIdentityGate, if_pos hne]
    by_cases ha : lowerAscii ans = "yes"
    · simp [ha]
    · simp [ha]
  · simp [checkClaimabilityIdentityGate, he]

/-- C6 witness: concrete mismatching addresses produce the warning, the
answer no stops the check, and matching addresses pass silently. -/
theorem c6_identity_check_witness :
    ((checkClaimabilityIdentityGate "0xAAAA" "0xBBBB" "no").2 = [beneficiaryWarning] ∧
      ((checkClaimabilityIdentityGate "0xAAAA" "0xBBBB" "no").1 = true ↔
        lowerAscii "no" = "yes")) ∧
    checkClaimabilityIdentityGate "0xAB" "0xab" "no" = (true, []) :=
  ⟨c6_identity_check.2.1 "0xAAAA" "0xBBBB" "no" (by decide),
   c6_identity_check.2.2 "0xAB" "0xab" "no" (by decide)⟩

/-- C9: decryptAsset rejects every blob shorter than 12+1+16 = 29 bytes,
and on any blob of at least 29 bytes it splits off the 12-byte nonce
prefix, the 16-byte tag suffix and the nonempty middle ciphertext of
length total minus 28, before attempting authenticated decryption. -/
theorem c9_asset_split (encryptedData symmetricKey : List Byte) :
    (encryptedData.length < 12 + 1 + 16 →
      decryptAsset encryptedData symmetricKey =
        .error (.encryptedDataTooShort encryptedData.length)) ∧
    (12 + 1 + 16 ≤ encryptedData.length →
      (encryptedData.take 12).length = 12 ∧
      (encryptedData.drop (encryptedData.length - 16)).length = 16 ∧
      ((encryptedData.take (encryptedData.length - 16)).drop 12).length =
        encryptedData.length - 28 ∧
      1 ≤ ((encryptedData.take (encryptedData.length - 16)).drop 12).length ∧
      decryptAsset encryptedData symmetricKey =
        (if symmetricKey.length ≠ 32 then .error (.invalidKeyLength symmetricKey.length)
         else
           match gcmDecrypt symmetricKey (encryptedData.take 12)
             ((encryptedData.take (encryptedData.length - 16)).drop 12)
             (encryptedData.drop (encryptedData.length - 16)) with
           | some pt => .ok pt
           | none => .error .assetDecryptionFailed)) := by
  constructor
  · intro h
    simp [decryptAsset, h]
  · intro h
    refine ⟨?_, ?_, ?_, ?_, ?_⟩
    · simp [List.length_take]
      omega
    · simp [List.length_drop]
      omega
    · simp [List.length_drop, List.length_take]
      omega
    · simp [List.length_drop, List.length_take]
      omega
    · simp only [decryptAsset, if_neg (by omega : ¬ encryptedData.length < 12 + 1 + 16)]

/-- C9 witness: a 28-byte blob is rejected as too short, and the nonce
slice of a 29-byte blob has 12 bytes. -/
theorem c9_asset_split_witness :
    decryptAsset (List.replicate 28 0) (List.replicate 32 0) =
      .error (.encryptedDataTooShort (List.replicate 28 (0 : Nat)).length) ∧
    ((List.replicate 29 (0 : Nat)).take 12).length = 12 :=
  ⟨(c9_asset_split (List.replicate 28 0) (List.replicate 32 0)).1 (by decide),
   ((c9_asset_split (List.replicate 29 0) (List.replicate 32 0)).2 (by decide)).1⟩

/-- The private key of value 1 has 32 bytes. -/
theorem privOne_length : privOne.length = 32 := by decide

/-- The concrete correctly encrypted key blob with 16 ciphertext bytes has
the 141 bytes of the end-to-end scenario. -/
theorem demoBlob141_length : demoBlob141.length = 141 := by decide

/-- The private key of value 1 passes the 32-byte length guard. -/
theorem demo158_priv_ok : ¬ privOne.length ≠ 32 := by decide

/-- The 158-byte blob passes the 157-byte minimum length guard. -/
theorem demo158_len_ok : ¬ (demoBlob158.length < 65 + 32 + 12 + 32 + 16) := by decide

/-- The shared x coordinate already has 32 bytes, so it is not truncated. -/
theorem demo158_sharedX_short : ¬ 32 < demoSharedX.length := by decide

/-- The salt field of the 158-byte blob. -/
theorem demo158_salt : List.take 32 (List.drop 65 demoBlob158) = demoSalt := by decide

/-- The nonce field of the 158-byte blob. -/
theorem demo158_nonce : List.take 12 (List.drop 97 demoBlob158) = demoNonce := by decide

/-- The ciphertext field of the 158-byte blob. -/
theorem demo158_ct :
    List.drop 109 (List.take (demoBlob158.length - 16) demoBlob158) = demoCt158 := by decide

/-- The tag field of the 158-byte blob. -/
theorem demo158_tag :
    List.drop (demoBlob158.length - 16) demoBlob158 = demoTag158 := by decide

set_option maxHeartbeats 8000000 in
set_option maxRecDepth 200000 in
/-- The private key 1 is a valid secp256k1 scalar. -/
theorem demo158_scalar_ok :
    1 ≤ bytesToNatBE privOne ∧ bytesToNatBE privOne < secpN := by decide

set_option maxHeartbeats 8000000 in
set_option maxRecDepth 200000 in
/-- The ephemeral-key field of the 158-byte blob parses as the base point. -/
theorem demo158_parse :
    parseUncompressedPoint (List.take 65 demoBlob158) = some (secpGx, secpGy) := by decide

set_option maxHeartbeats 8000000 in
set_option maxRecDepth 200000 in
/-- The ECDH agreement between the private key 1 and the base point yields
the recorded shared x coordinate. -/
theorem demo158_ecdh :
    ecdhComputeSecret (bytesToNatBE privOne) (secpGx, secpGy) = some demoSharedX := by decide

set_option maxHeartbeats 8000000 in
set_option maxRecDepth 200000 in
/-- The HKDF derivation on the recorded shared secret and salt yields the
recorded blob key. -/
theorem demo158_key : deriveBlobKey demoSharedX demoSalt = demoBlobKey := by decide

set_option maxHeartbeats 8000000 in
set_option maxRecDepth 200000 in
/-- The GCM authentication tag of the recorded ciphertext under the
recorded blob key: the tag field of the blob verifies. -/
theorem demo158_gcmtag :
    gcmTag (aesKeySchedule demoBlobKey) (gcmJ0 demoNonce) demoCt158 = demoTag158 := by decide

set_option maxHeartbeats 8000000 in
set_option maxRecDepth 200000 in
/-- The CTR keystream decryption of the recorded ciphertext under the
recorded blob key yields the 33-byte plaintext of sevens. -/
theorem demo158_gcmctr :
    gcmCtr (aesKeySchedule demoBlobKey) (gcmJ0 demoNonce) demoCt158 =
      List.replicate 33 7 := by decide

/-- GCM decryption of the recorded ciphertext and tag succeeds with the
33-byte plaintext of sevens. -/
theorem demo158_gcm :
    gcmDecrypt demoBlobKey demoNonce demoCt158 demoTag158 =
      some (List.replicate 33 7) := by
  simp only [gcmDecrypt, demo158_gcmtag, demo158_gcmctr, eq_self_iff_true, if_true]

/-- Success path of decryptSymmetricKeyBytes: when both guards pass, the
ephemeral key parses, the ECDH agreement succeeds without truncation, and
GCM decryption of the blob fields under the derived key succeeds, the
function returns the decrypted plaintext. -/
theorem decryptSymmetricKeyBytes_ok (blob priv : List Byte) (pub : Nat × Nat)
    (sharedX key pt : List Byte)
    (hp : ¬ priv.length ≠ 32)
    (hlen : ¬ blob.length < 65 + 32 + 12 + 32 + 16)
    (hd : ¬ ¬ (1 ≤ bytesToNatBE priv ∧ bytesToNatBE priv < secpN))
    (h1 : parseUncompressedPoint (blob.take 65) = some pub)
    (h2 : ecdhComputeSecret (bytesToNatBE priv) pub = some sharedX)
    (hxlen : ¬ 32 < sharedX.length)
    (hkey : deriveBlobKey sharedX ((blob.drop 65).take 32) = key)
    (hg : gcmDecrypt key ((blob.drop 97).take 12)
        ((blob.take (blob.length - 16)).drop 109)
        (blob.drop (blob.length - 16)) = some pt) :
    decryptSymmetricKeyBytes blob priv = .ok pt := by
  simp only [decryptSymmetricKeyBytes, if_neg hp, if_neg hlen, if_neg hd, h1, h2,
    if_neg hxlen, hkey, hg]

/-- The concrete correctly encrypted 158-byte key blob decrypts under the
matching private key 1 to its 33-byte plaintext. -/
theorem demoBlob158_decrypts :
    decryptSymmetricKeyBytes demoBlob158 privOne = .ok (List.replicate 33 7) :=
  decryptSymmetricKeyBytes_ok demoBlob158 privOne (secpGx, secpGy) demoSharedX
    demoBlobKey (List.replicate 33 7) demo158_priv_ok demo158_len_ok
    (not_not_intro demo158_scalar_ok) demo158_parse demo158_ecdh demo158_sharedX_short
    (by rw [demo158_salt]; exact demo158_key)
    (by rw [demo158_nonce, demo158_ct, demo158_tag]; exact demo158_gcm)

/-- C2 counterexample: the 141-byte key blob of the end-to-end scenario
(the recorded bytes of sealKeyBlob ephemeralG demoSalt demoNonce
demoSharedX on the 16-byte key, a correct encryption for the beneficiary
private key 1) is rejected as too short by decryptSymmetricKey even under
that correct private key: no 16-byte symmetric key is ever produced from a
141-byte blob. -/
theorem c2_counterexample :
    demoBlob141.length = 141 ∧
    decryptSymmetricKeyBytes demoBlob141 privOne = .error (.encryptedKeyTooShort 141) :=
  ⟨demoBlob141_length, by
    have h := dskB_tooShort demoBlob141 privOne privOne_length
      (by rw [demoBlob141_length]; omega)
    rwa [demoBlob141_length] at h⟩

/-- C2 witness: the amended claim applied to the concrete 141-byte blob
and the correct private key. -/
theorem c2_amended_witness :
    decryptSymmetricKeyBytes demoBlob141 privOne = .error (.encryptedKeyTooShort 141) ∧
    (∀ k, decryptSymmetricKeyBytes demoBlob141 privOne ≠ .ok k) ∧
    decryptSymmetricKeyBytes demoBlob141 privOne ≠ .error .keyDecryptionFailed :=
  c2_amended_theorem demoBlob141 privOne demoBlob141_length privOne_length

/-- C3 counterexample: a correctly encrypted 158-byte blob (demoBlob158,
whose authentication tag the successful decryption re-verifies) passes the
length check and its tag verifies under the correct private key, yet the
key decryptSymmetricKey returns has 33 bytes, not 32: the function returns
whatever length the blob ciphertext has. -/
theorem c3_counterexample :
    decryptSymmetricKeyBytes demoBlob158 privOne = .ok (List.replicate 33 7) ∧
    (List.replicate 33 (7 : Nat)).length ≠ 32 :=
  ⟨demoBlob158_decrypts, by decide⟩

/-- C3 witness: the amended claim applied to the concrete successful
decryption of the 158-byte blob. -/
theorem c3_amended_witness :
    (List.replicate 33 (7 : Nat)).length = demoBlob158.length - 125 ∧
    32 ≤ (List.replicate 33 (7 : Nat)).length :=
  c3_amended_theorem demoBlob158 privOne (List.replicate 33 7) demoBlob158_decrypts

end Inheritor
